import Mathlib

/-!
Verification of the build-request admission and freeze pipeline of the
sregistry container registry.

The development shallowly embeds the two source modules:
* `shub/apps/main/views/containers.py` — the container freeze toggle
  (`change_freeze_status`), and
* `shub/plugins/google_build/views.py` — the push admission controller
  (`RecipePushViewSet.perform_create`), the build-notification endpoint
  (`receive_build`) and the webhook router (`receive_hook`).

External collaborators (the identity resolver, signature validator,
permission checker, GitHub hook handler, the object store's get/filter
semantics) are modelled as explicit parameters or as list lookups, exactly
as the code consumes them.
-/

/-- Python renders booleans as `True` / `False` in `%s` formatting. -/
def pyBool : Bool → String
  | true => "True"
  | false => "False"

/-- Embedding of the `Container` model row: identified by
(collection, name, tag), with the freeze state (`frozen`, `version`)
and the primary key `id`. -/
structure Container where
  id : Nat
  collection : String
  name : String
  tag : String
  frozen : Bool
  version : Option String
  deriving DecidableEq, Repr

/-- Modelled from the spec: `Container.get_short_uri` is defined in the
models module, which is outside the two source files; per the glossary a
container is "identified by collection + name + tag", so the short uri is
rendered as `collection/name:tag`. Only its presence in the frozen-push
message matters to the claims, not its exact format. -/
def Container.get_short_uri (c : Container) : String :=
  c.collection ++ "/" ++ c.name ++ ":" ++ c.tag

/-! ## Freeze state machine (`change_freeze_status`, containers.py lines 174-194) -/

/-- The state update performed by `change_freeze_status` once edit
permission is granted: if the container was never versioned and is not
frozen, assign the fresh timestamp `now` as version; then negate `frozen`.
Mirrors containers.py lines 186-189. -/
def freeze_toggle (now : String) (c : Container) : Container :=
  let c := if c.version = none ∧ c.frozen = false then { c with version := some now } else c
  { c with frozen := !c.frozen }

/-- Result of the `change_freeze_status` view on a single container:
the (possibly updated) container, the flash message shown, and whether
`container.save()` was executed. -/
structure FreezeResult where
  container : Container
  message : String
  saved : Bool
  deriving DecidableEq, Repr

/-- Embedding of the `change_freeze_status` view body after the container
has been fetched: guard on edit permission, then toggle and save, else
leave the container untouched and flash a denial. -/
def change_freeze_status (edit_permission : Bool) (now : String) (c : Container) :
    FreezeResult :=
  if edit_permission = true then
    let c' := freeze_toggle now c
    { container := c'
      message := "Container frozen set to " ++ pyBool c'.frozen ++ "."
      saved := true }
  else
    { container := c
      message := "You do not have permissions to perform this operation."
      saved := false }

/-- Iterated permitted freeze/unfreeze toggles, one per timestamp in `ns`. -/
def freeze_toggles (ns : List String) (c : Container) : Container :=
  ns.foldl (fun c n => freeze_toggle n c) c

/-- Denial flash message of `change_freeze_status` (containers.py line 193). -/
def freeze_denied_message : String :=
  "You do not have permissions to perform this operation."

/-- The store-level `change_freeze_status` view: fetch the container by id
(`get_container` signals Http404 when absent, modelled as `none`), then run
the guarded toggle; `container.save()` writes the row back by primary key. -/
def change_freeze_status_view (has_edit : Container → Bool) (now : String)
    (cid : Nat) (store : List Container) : Option (List Container × String) :=
  match store.find? (fun c => c.id == cid) with
  | none => none
  | some c =>
    let r := change_freeze_status (has_edit c) now c
    if r.saved then
      some (store.map (fun x => if x.id == cid then r.container else x), r.message)
    else
      some (store, r.message)

/-! ## Push admission controller (`RecipePushViewSet.perform_create`,
google_build/views.py lines 166-233) -/

/-- An authenticated principal as resolved by `get_request_user`. -/
structure User where
  id : Nat
  deriving DecidableEq, Repr

/-- Embedding of the `Collection` model fields the controller reads:
the globally unique name and the set of owner principals (by user id). -/
structure Collection where
  name : String
  owners : List Nat
  deriving DecidableEq, Repr

/-- The `RecipeFile` row persisted by `serializer.save(...)` on successful
admission (google_build/views.py lines 227-231). -/
structure RecipeFile where
  datafile : String
  collection : String
  tag : String
  name : String
  owner_id : Nat
  deriving DecidableEq, Repr

/-- The multipart push request: form fields plus the `Authorization`
header (absent header modelled as `none`; `tag` defaults to "latest"). -/
structure PushRequest where
  datafile : String
  collection : String
  tag : Option String
  name : String
  auth : Option String
  deriving DecidableEq, Repr

/-- Environment of external collaborators and stores the controller
consumes: the identity resolver (`get_request_user`), the timestamp
generator, the signed request validator (`validate_request`, applied to
token, payload, purpose, timestamp), the global create-permission check,
the collection-level permission checker (`has_permission`, applied to
token, collection, pull_permission), and the persisted collections and
containers. -/
structure PushEnv where
  get_request_user : String → User
  generate_timestamp : String
  validate_request : String → String → String → String → Bool
  has_create_permission : User → Bool
  has_permission : String → Collection → Bool → Bool
  collections : List Collection
  containers : List Container

/-- `Collection.objects.get(name=...)`: lookup by the unique name, `none`
playing the role of `Collection.DoesNotExist`. -/
def Collection.get_by_name (cols : List Collection) (n : String) : Option Collection :=
  cols.find? (fun c => c.name == n)

/-- `Container.objects.get(collection=..., name=..., tag=...)`: lookup of
the container identified by the (collection, name, tag) triple, `none`
playing the role of `Container.DoesNotExist`. -/
def Container.get_by_triple (cs : List Container) (col n t : String) : Option Container :=
  cs.find? (fun c => c.collection == col && c.name == n && c.tag == t)

/-- The canonical signed payload built at google_build/views.py
lines 181-184: `"build|<collection>|<timestamp>|<name>|<tag>|"`. -/
def push_payload (collection_name timestamp name tag : String) : String :=
  "build|" ++ collection_name ++ "|" ++ timestamp ++ "|" ++ name ++ "|" ++ tag ++ "|"

/-- Outcome of `perform_create`: either a `RecipeFile` is created, or a
`PermissionDenied(detail=...)` exception carrying the given detail
message is raised. -/
inductive PushOutcome where
  | created (r : RecipeFile)
  | permissionDenied (detail : String)
  deriving DecidableEq, Repr

/-- Embedding of `RecipePushViewSet.perform_create`, clause by clause:
missing Authorization header, principal resolution, payload signature
validation for purpose "build", global create permission, collection
resolution (`Not Found` on miss), collection ownership, push permission
(`pull_permission=False`), then the frozen-container gate before the
`RecipeFile` is saved. -/
def perform_create (env : PushEnv) (req : PushRequest) : PushOutcome :=
  let tag := req.tag.getD "latest"
  let name := req.name
  let collection_name := req.collection
  match req.auth with
  | none => .permissionDenied "Authentication Required"
  | some auth =>
    let owner := env.get_request_user auth
    let timestamp := env.generate_timestamp
    let payload := push_payload collection_name timestamp name tag
    if env.validate_request auth payload "build" timestamp = false then
      .permissionDenied "Unauthorized"
    else if env.has_create_permission owner = false then
      .permissionDenied "Unauthorized Create Permission"
    else
      match Collection.get_by_name env.collections collection_name with
      | none => .permissionDenied "Not Found"
      | some collection =>
        if collection.owners.contains owner.id = false then
          .permissionDenied "Unauthorized"
        else if env.has_permission auth collection false = false then
          .permissionDenied "Unauthorized"
        else
          match Container.get_by_triple env.containers collection.name name tag with
          | some container =>
            if container.frozen = false then
              .created { datafile := req.datafile, collection := req.collection,
                         tag := tag, name := name, owner_id := owner.id }
            else
              .permissionDenied (container.get_short_uri ++ " is frozen, push not allowed.")
          | none =>
            .created { datafile := req.datafile, collection := req.collection,
                       tag := tag, name := name, owner_id := owner.id }

/-- Effect of one push on the persisted `RecipeFile` table: exactly one
row is appended on successful admission, none otherwise. -/
def push_recipe_files (env : PushEnv) (req : PushRequest)
    (recipes : List RecipeFile) : List RecipeFile :=
  match perform_create env req with
  | .created r => recipes ++ [r]
  | .permissionDenied _ => recipes

/-! ## Webhook router (`receive_hook`, google_build/views.py lines 281-292) -/

/-- An inbound hook request: the HTTP method and the `User-Agent` header
(`request.META["HTTP_USER_AGENT"]`). -/
structure HookRequest where
  method : String
  user_agent : String
  deriving DecidableEq, Repr

/-- `re.search(pat, s)` for the literal pattern used by the router:
substring containment. -/
def py_search (pat s : String) : Bool :=
  decide (pat.data <:+: s.data)

/-- Result of routing a hook: either the response of the GitHub handler
(`receive_github_hook`), or the generic invalid-request JSON response with
no handler invoked. -/
inductive HookRouteResult (α : Type) where
  | github (resp : α)
  | invalidRequest (message : String)
  deriving DecidableEq, Repr

/-- Embedding of `receive_hook`: on a POST whose `User-Agent` matches
`GitHub-Hookshot`, return the GitHub handler's response; every other
request falls through to `JsonResponseMessage(message="Invalid request.")`.
The GitHub handler is an external collaborator, passed in as `handler`. -/
def receive_hook {α : Type} (handler : HookRequest → α) (req : HookRequest) :
    HookRouteResult α :=
  if req.method = "POST" then
    if py_search "GitHub-Hookshot" req.user_agent = true then
      .github (handler req)
    else
      .invalidRequest "Invalid request."
  else
    .invalidRequest "Invalid request."

/-! ## Build notification endpoint (`receive_build`, google_build/views.py
lines 238-261) -/

/-- An inbound build-notification request: method, the `CONTENT_LENGTH`
header as the string Django exposes, and the raw body. -/
structure BuildRequest where
  method : String
  content_length : String
  body : String
  deriving DecidableEq, Repr

/-- A job placed on the queue by `scheduler.enqueue_in(timedelta(seconds=10),
complete_build, cid=..., params=...)`. -/
structure ScheduledJob where
  delay_seconds : Nat
  cid : Nat
  params : String
  deriving DecidableEq, Repr

/-- The `JsonResponseMessage(message=..., status=..., status_message=...)`
body returned by the endpoint. -/
structure JsonMessage where
  message : String
  status : Nat
  status_message : String
  deriving DecidableEq, Repr

/-- Outcome of one call to `receive_build`: a list of jobs scheduled
together with the HTTP response, or an uncaught exception (no response,
no job). -/
inductive BuildHookOutcome where
  | ok (jobs : List ScheduledJob) (resp : JsonMessage)
  | exn (e : String)
  deriving DecidableEq, Repr

/-- Embedding of `receive_build`: on POST it fetches the container by id
(`Container.objects.get(id=cid)` raises `DoesNotExist` on a miss), parses
the body via `ast.literal_eval(json.loads(...))` — modelled by the
external parser `literal_eval`, `none` meaning the parse raised — and
schedules `complete_build` with a 10 second delay exactly when the
`CONTENT_LENGTH` header is the string "47"; the JSON response is returned
for every method when no exception interrupts the flow. -/
def receive_build (store : List Container) (literal_eval : String → Option String)
    (req : BuildRequest) (cid : Nat) : BuildHookOutcome :=
  if req.method = "POST" then
    match store.find? (fun c => c.id == cid) with
    | none => .exn "Container.DoesNotExist"
    | some container =>
      match literal_eval req.body with
      | none => .exn "ValueError"
      | some params =>
        let jobs :=
          if req.content_length = "47" then
            [{ delay_seconds := 10, cid := container.id, params := params }]
          else []
        .ok jobs { message := "Notification Received", status := 200,
                   status_message := "Received" }
  else
    .ok [] { message := "Notification Received", status := 200,
             status_message := "Received" }

/-- Whether an outcome is an HTTP 200 response (rather than an uncaught
exception or another status). -/
def BuildHookOutcome.is200 : BuildHookOutcome → Bool
  | .ok _ r => r.status == 200
  | .exn _ => false

/-- The jobs scheduled by an outcome (an exception schedules none). -/
def BuildHookOutcome.jobs : BuildHookOutcome → List ScheduledJob
  | .ok js _ => js
  | .exn _ => []

/-! ## Concrete fixtures used to witness the theorems below -/

/-- A frozen, versioned container `foo/bar:latest`. -/
def cFrozen : Container :=
  { id := 7, collection := "foo", name := "bar", tag := "latest",
    frozen := true, version := some "V" }

/-- A fresh container: never frozen, no version. -/
def cNew : Container :=
  { id := 1, collection := "c", name := "n", tag := "t",
    frozen := false, version := none }

/-- A second, unrelated container sharing the store with `cNew`. -/
def cOther : Container :=
  { id := 2, collection := "c", name := "m", tag := "t",
    frozen := false, version := some "W" }

/-- The collection `foo`, owned by user 1. -/
def colFoo : Collection :=
  { name := "foo", owners := [1] }

/-- A push environment where every external check succeeds and the store
holds `colFoo` and the frozen `cFrozen`. -/
def envOk : PushEnv :=
  { get_request_user := fun _ => { id := 1 }
    generate_timestamp := "T0"
    validate_request := fun _ _ _ _ => true
    has_create_permission := fun _ => true
    has_permission := fun _ _ _ => true
    collections := [colFoo]
    containers := [cFrozen] }

/-- A push request for `foo/bar` with the default tag and a token. -/
def reqBar : PushRequest :=
  { datafile := "D", collection := "foo", tag := none, name := "bar",
    auth := some "tok" }

/-! ## Helper lemmas on the freeze toggle -/

/-- The toggle always negates `frozen`. -/
theorem freeze_toggle_frozen (now : String) (c : Container) :
    (freeze_toggle now c).frozen = !c.frozen := by
  unfold freeze_toggle
  split <;> rfl

/-- The toggle sets `version` exactly when it was null on a non-frozen
container, and otherwise keeps it. -/
theorem freeze_toggle_version (now : String) (c : Container) :
    (freeze_toggle now c).version =
      if c.version = none ∧ c.frozen = false then some now else c.version := by
  unfold freeze_toggle
  split <;> rfl

/-- The toggle changes no identifying field. -/
theorem freeze_toggle_frame (now : String) (c : Container) :
    (freeze_toggle now c).id = c.id ∧
    (freeze_toggle now c).collection = c.collection ∧
    (freeze_toggle now c).name = c.name ∧
    (freeze_toggle now c).tag = c.tag := by
  unfold freeze_toggle
  split <;> exact ⟨rfl, rfl, rfl, rfl⟩

/-- A non-null version survives one toggle unchanged. -/
theorem freeze_toggle_keeps_version (now v : String) (c : Container)
    (h : c.version = some v) : (freeze_toggle now c).version = some v := by
  rw [freeze_toggle_version, if_neg]
  · exact h
  · simp [h]

/-- The spec's state space — a frozen container is always versioned — is
preserved by the toggle. -/
theorem freeze_toggle_preserves_inv (now : String) (c : Container)
    (h : c.frozen = true → c.version ≠ none) :
    (freeze_toggle now c).frozen = true → (freeze_toggle now c).version ≠ none := by
  intro hf
  rw [freeze_toggle_version]
  rw [freeze_toggle_frozen] at hf
  rcases hv : c.version with _ | v
  · have hcf : c.frozen = false := by
      cases hcf : c.frozen
      · rfl
      · exact absurd hv (h hcf)
    simp [hv, hcf]
  · rw [if_neg]
    · simp
    · simp [hv]

/-! ## Claim theorems: freeze state machine -/

/-- C2: once the version field is non-null its value never changes under
any sequence of permitted freeze/unfreeze toggles, and the first freeze of
an unversioned, unfrozen container assigns the fresh timestamp as version. -/
theorem C2_version_set_once (c : Container) :
    (∀ now, c.version = none → c.frozen = false →
      (freeze_toggle now c).version = some now) ∧
    (∀ v ns, c.version = some v → (freeze_toggles ns c).version = some v) := by
  constructor
  · intro now h0 h1
    rw [freeze_toggle_version, if_pos ⟨h0, h1⟩]
  · intro v ns
    induction ns generalizing c with
    | nil => intro h; exact h
    | cons n ns ih =>
      intro h
      exact ih _ (freeze_toggle_keeps_version n v c h)

/-- Witness for C2 at concrete containers: the first freeze of `cNew`
stamps its timestamp, and the version of `cFrozen` survives two further
toggles. -/
theorem C2_version_set_once_witness :
    (freeze_toggle "N1" cNew).version = some "N1" ∧
    (freeze_toggles ["N2", "N3"] cFrozen).version = some "V" :=
  ⟨(C2_version_set_once cNew).1 "N1" rfl rfl,
   (C2_version_set_once cFrozen).2 "V" ["N2", "N3"] rfl⟩

/-- C6: on any container of the spec's state space (frozen implies
versioned), two successive permitted toggles restore the original frozen
flag, and the second toggle leaves the version exactly as the first
toggle left it. -/
theorem C6_double_toggle_roundtrip (c : Container) (n1 n2 : String)
    (hinv : c.frozen = true → c.version ≠ none) :
    ((change_freeze_status true n2
        (change_freeze_status true n1 c).container).container).frozen = c.frozen ∧
    ((change_freeze_status true n2
        (change_freeze_status true n1 c).container).container).version =
      ((change_freeze_status true n1 c).container).version := by
  rcases c with ⟨id, col, name, tag, frozen, version⟩
  constructor
  · simp [change_freeze_status, freeze_toggle]
    rcases version with _ | v <;> rcases frozen <;> simp
  · rcases version with _ | v
    · have hf : frozen = false := by
        cases hfr : frozen
        · rfl
        · exact absurd rfl (hinv (by simp [hfr]))
      subst hf
      simp [change_freeze_status, freeze_toggle]
    · rcases frozen <;> simp [change_freeze_status, freeze_toggle]

/-- Witness for C6 at the concrete frozen container `cFrozen`. -/
theorem C6_double_toggle_roundtrip_witness :
    ((change_freeze_status true "N2"
        (change_freeze_status true "N1" cFrozen).container).container).frozen =
      cFrozen.frozen ∧
    ((change_freeze_status true "N2"
        (change_freeze_status true "N1" cFrozen).container).container).version =
      ((change_freeze_status true "N1" cFrozen).container).version :=
  C6_double_toggle_roundtrip cFrozen "N1" "N2" (by intro _; simp [cFrozen])

/-- C7: a freeze-toggle attempt without edit permission leaves the
container (frozen flag and version alike) untouched, is not saved, and
flashes the denial message; any run of the view that does change the
container must have had edit permission. -/
theorem C7_denied_toggle_no_change (now : String) (c : Container) :
    change_freeze_status false now c =
      { container := c, message := freeze_denied_message, saved := false } ∧
    (∀ edit : Bool, (change_freeze_status edit now c).container ≠ c → edit = true) := by
  constructor
  · rfl
  · intro edit h
    cases edit
    · exact absurd rfl h
    · rfl

/-- Witness for C7 at the concrete container `cNew`: the denied toggle is
the identity, and the permitted toggle that does change `cNew` indeed ran
with edit permission. -/
theorem C7_denied_toggle_no_change_witness :
    change_freeze_status false "N1" cNew =
      { container := cNew, message := freeze_denied_message, saved := false } ∧
    true = true :=
  ⟨(C7_denied_toggle_no_change "N1" cNew).1,
   (C7_denied_toggle_no_change "N1" cNew).2 true (by simp [change_freeze_status, freeze_toggle, cNew])⟩

/-- C10: a permitted freeze toggle rewrites only the targeted row — the
new row differs from the old only in `frozen` (always negated) and
`version` (assigned only when it was null on an unfrozen container); the
identifying fields are untouched and every container with a different id
is still in the store unchanged. -/
theorem C10_freeze_frame (has_edit : Container → Bool) (now : String) (cid : Nat)
    (store : List Container) (c : Container)
    (hfind : store.find? (fun x => x.id == cid) = some c)
    (hedit : has_edit c = true) :
    change_freeze_status_view has_edit now cid store =
      some (store.map (fun x => if x.id == cid then freeze_toggle now c else x),
            "Container frozen set to " ++ pyBool (!c.frozen) ++ ".") ∧
    (freeze_toggle now c).frozen = !c.frozen ∧
    (freeze_toggle now c).version =
      (if c.version = none ∧ c.frozen = false then some now else c.version) ∧
    (freeze_toggle now c).id = c.id ∧
    (freeze_toggle now c).collection = c.collection ∧
    (freeze_toggle now c).name = c.name ∧
    (freeze_toggle now c).tag = c.tag ∧
    ∀ x ∈ store, x.id ≠ cid →
      x ∈ store.map (fun x => if x.id == cid then freeze_toggle now c else x) := by
  refine ⟨?_, freeze_toggle_frozen now c, freeze_toggle_version now c,
    (freeze_toggle_frame now c).1, (freeze_toggle_frame now c).2.1,
    (freeze_toggle_frame now c).2.2.1, (freeze_toggle_frame now c).2.2.2, ?_⟩
  · simp [change_freeze_status_view, hfind, change_freeze_status, hedit,
      freeze_toggle_frozen]
  · intro x hx hne
    have hid : (x.id == cid) = false := by simp [hne]
    have hm := List.mem_map_of_mem
      (fun x => if x.id == cid then freeze_toggle now c else x) hx
    simpa [hid] using hm

/-- Witness for C10: toggling container 1 in a two-container store
rewrites only row 1. -/
theorem C10_freeze_frame_witness :
    change_freeze_status_view (fun _ => true) "NOW" 1 [cNew, cOther] =
      some ([cNew, cOther].map (fun x => if x.id == 1 then freeze_toggle "NOW" cNew else x),
            "Container frozen set to " ++ pyBool (!cNew.frozen) ++ ".") :=
  (C10_freeze_frame (fun _ => true) "NOW" 1 [cNew, cOther] cNew rfl rfl).1

/-! ## Claim theorems: push admission controller -/

/-- C1: when every authentication, signature, create, resolution,
ownership and push-permission check passes but the target container is
frozen, admission raises exactly
`PermissionDenied("<short-uri> is frozen, push not allowed.")` and no
`RecipeFile` row is persisted; the statement quantifies over every such
request, so the rejection recurs on every retry while the container stays
frozen. -/
theorem C1_frozen_push_rejected (env : PushEnv) (req : PushRequest) (a : String)
    (collection : Collection) (container : Container)
    (hauth : req.auth = some a)
    (hval : env.validate_request a
      (push_payload req.collection env.generate_timestamp req.name (req.tag.getD "latest"))
      "build" env.generate_timestamp = true)
    (hcreate : env.has_create_permission (env.get_request_user a) = true)
    (hcol : Collection.get_by_name env.collections req.collection = some collection)
    (hown : collection.owners.contains (env.get_request_user a).id = true)
    (hperm : env.has_permission a collection false = true)
    (hcont : Container.get_by_triple env.containers collection.name req.name
      (req.tag.getD "latest") = some container)
    (hfrozen : container.frozen = true) :
    perform_create env req =
      .permissionDenied (container.get_short_uri ++ " is frozen, push not allowed.") ∧
    ∀ recipes, push_recipe_files env req recipes = recipes := by
  have hmem : (env.get_request_user a).id ∈ collection.owners := by
    simpa using hown
  have hout : perform_create env req =
      .permissionDenied (container.get_short_uri ++ " is frozen, push not allowed.") := by
    simp [perform_create, hauth, hval, hcreate, hcol, hmem, hperm, hcont, hfrozen]
  exact ⟨hout, fun recipes => by simp [push_recipe_files, hout]⟩

/-- Witness for C1: a push to the frozen `foo/bar:latest` in `envOk` is
rejected with the frozen message and persists nothing. -/
theorem C1_frozen_push_rejected_witness :
    perform_create envOk reqBar =
      .permissionDenied (cFrozen.get_short_uri ++ " is frozen, push not allowed.") ∧
    push_recipe_files envOk reqBar [] = [] :=
  ⟨(C1_frozen_push_rejected envOk reqBar "tok" colFoo cFrozen
      rfl rfl rfl rfl rfl rfl rfl rfl).1,
   (C1_frozen_push_rejected envOk reqBar "tok" colFoo cFrozen
      rfl rfl rfl rfl rfl rfl rfl rfl).2 []⟩

/-- C3: once authentication, signature validation and the create
permission pass, a push naming a collection that does not exist is
rejected with the detail "Not Found" — a detail distinct from every
detail the controller uses for its Unauthorized and Forbidden outcomes. -/
theorem C3_missing_collection_not_found (env : PushEnv) (req : PushRequest) (a : String)
    (hauth : req.auth = some a)
    (hval : env.validate_request a
      (push_payload req.collection env.generate_timestamp req.name (req.tag.getD "latest"))
      "build" env.generate_timestamp = true)
    (hcreate : env.has_create_permission (env.get_request_user a) = true)
    (hcol : Collection.get_by_name env.collections req.collection = none) :
    perform_create env req = .permissionDenied "Not Found" ∧
    ("Not Found" : String) ≠ "Authentication Required" ∧
    ("Not Found" : String) ≠ "Unauthorized" ∧
    ("Not Found" : String) ≠ "Unauthorized Create Permission" ∧
    ∀ c : Container,
      ("Not Found" : String) ≠ c.get_short_uri ++ " is frozen, push not allowed." := by
  refine ⟨?_, by decide, by decide, by decide, ?_⟩
  · simp [perform_create, hauth, hval, hcreate, hcol]
  · intro c h
    have hl := congrArg String.length h
    have h1 : (" is frozen, push not allowed." : String).length = 29 := by decide
    have h2 : ("Not Found" : String).length = 9 := by decide
    rw [String.length_append, h1, h2] at hl
    omega

/-- Witness for C3: pushing to `foo` against an empty collection store. -/
theorem C3_missing_collection_not_found_witness :
    perform_create { envOk with collections := [] } reqBar =
      .permissionDenied "Not Found" :=
  (C3_missing_collection_not_found { envOk with collections := [] } reqBar "tok"
    rfl rfl rfl rfl).1

/-- C4: with a token present the controller validates, under purpose
"build", exactly the canonical payload
`"build|<collection>|<timestamp>|<name>|<tag>|"`; a validator that
rejects that payload makes admission raise `PermissionDenied("Unauthorized")`
with nothing persisted, and the outcome depends on the validator only
through its verdict on that exact (token, payload, purpose, timestamp)
tuple. -/
theorem C4_signature_gate (env : PushEnv) (req : PushRequest) (a : String)
    (hauth : req.auth = some a) :
    (env.validate_request a
        (push_payload req.collection env.generate_timestamp req.name (req.tag.getD "latest"))
        "build" env.generate_timestamp = false →
      perform_create env req = .permissionDenied "Unauthorized" ∧
      ∀ recipes, push_recipe_files env req recipes = recipes) ∧
    (∀ v v2 : String → String → String → String → Bool,
      v a (push_payload req.collection env.generate_timestamp req.name (req.tag.getD "latest"))
          "build" env.generate_timestamp =
        v2 a (push_payload req.collection env.generate_timestamp req.name (req.tag.getD "latest"))
          "build" env.generate_timestamp →
      perform_create { env with validate_request := v } req =
        perform_create { env with validate_request := v2 } req) := by
  constructor
  · intro hval
    have hout : perform_create env req = .permissionDenied "Unauthorized" := by
      simp [perform_create, hauth, hval]
    exact ⟨hout, fun recipes => by simp [push_recipe_files, hout]⟩
  · intro v v2 h
    simp only [perform_create, hauth]
    rw [h]

/-- Witness for C4: a validator that rejects everything yields the
Unauthorized rejection and leaves the recipe table unchanged. -/
theorem C4_signature_gate_witness :
    perform_create { envOk with validate_request := fun _ _ _ _ => false } reqBar =
      .permissionDenied "Unauthorized" ∧
    push_recipe_files { envOk with validate_request := fun _ _ _ _ => false } reqBar [] = [] :=
  ⟨((C4_signature_gate { envOk with validate_request := fun _ _ _ _ => false } reqBar "tok"
      rfl).1 rfl).1,
   ((C4_signature_gate { envOk with validate_request := fun _ _ _ _ => false } reqBar "tok"
      rfl).1 rfl).2 []⟩

/-- C5: when every check passes and the target (collection, name, tag)
has no container or an unfrozen one, admission succeeds and appends
exactly one `RecipeFile` carrying the request's datafile, collection,
defaulted tag, name and the resolved principal's id. -/
theorem C5_admission_creates_recipe (env : PushEnv) (req : PushRequest) (a : String)
    (collection : Collection)
    (hauth : req.auth = some a)
    (hval : env.validate_request a
      (push_payload req.collection env.generate_timestamp req.name (req.tag.getD "latest"))
      "build" env.generate_timestamp = true)
    (hcreate : env.has_create_permission (env.get_request_user a) = true)
    (hcol : Collection.get_by_name env.collections req.collection = some collection)
    (hown : collection.owners.contains (env.get_request_user a).id = true)
    (hperm : env.has_permission a collection false = true)
    (hfree : Container.get_by_triple env.containers collection.name req.name
        (req.tag.getD "latest") = none ∨
      ∃ container, Container.get_by_triple env.containers collection.name req.name
        (req.tag.getD "latest") = some container ∧ container.frozen = false) :
    perform_create env req =
      .created { datafile := req.datafile, collection := req.collection,
                 tag := req.tag.getD "latest", name := req.name,
                 owner_id := (env.get_request_user a).id } ∧
    ∀ recipes, push_recipe_files env req recipes =
      recipes ++ [{ datafile := req.datafile, collection := req.collection,
                    tag := req.tag.getD "latest", name := req.name,
                    owner_id := (env.get_request_user a).id }] := by
  have hmem : (env.get_request_user a).id ∈ collection.owners := by
    simpa using hown
  have hout : perform_create env req =
      .created { datafile := req.datafile, collection := req.collection,
                 tag := req.tag.getD "latest", name := req.name,
                 owner_id := (env.get_request_user a).id } := by
    rcases hfree with hnone | ⟨container, hsome, hunfrozen⟩
    · simp [perform_create, hauth, hval, hcreate, hcol, hmem, hperm, hnone]
    · simp [perform_create, hauth, hval, hcreate, hcol, hmem, hperm, hsome, hunfrozen]
  exact ⟨hout, fun recipes => by simp [push_recipe_files, hout]⟩

/-- Witness for C5: the same push against an empty container store
creates exactly one recipe row. -/
theorem C5_admission_creates_recipe_witness :
    perform_create { envOk with containers := [] } reqBar =
      .created { datafile := "D", collection := "foo", tag := "latest",
                 name := "bar", owner_id := 1 } ∧
    push_recipe_files { envOk with containers := [] } reqBar [] =
      [{ datafile := "D", collection := "foo", tag := "latest",
         name := "bar", owner_id := 1 }] :=
  ⟨(C5_admission_creates_recipe { envOk with containers := [] } reqBar "tok" colFoo
      rfl rfl rfl rfl rfl rfl (Or.inl rfl)).1,
   (C5_admission_creates_recipe { envOk with containers := [] } reqBar "tok" colFoo
      rfl rfl rfl rfl rfl rfl (Or.inl rfl)).2 []⟩

/-! ## Claim theorems: webhook router and build notification -/

/-- C8 counterexample: a GET request whose `User-Agent` does contain the
`GitHub-Hookshot` marker is answered with the generic invalid-request
response, not with the GitHub handler's response — the router checks the
header only on POST, so the claim as stated fails on non-POST requests. -/
theorem C8_route_by_agent_counterexample :
    py_search "GitHub-Hookshot" "GitHub-Hookshot/abc" = true ∧
    receive_hook (fun _ => (0 : Nat)) { method := "GET", user_agent := "GitHub-Hookshot/abc" } =
      .invalidRequest "Invalid request." ∧
    HookRouteResult.invalidRequest (α := Nat) "Invalid request." ≠ .github 0 :=
  ⟨by decide, rfl, by decide⟩

/-- C8 amended: on a POST whose `User-Agent` contains `GitHub-Hookshot`
the router returns the GitHub handler's response; on every other request
(non-POST, or `User-Agent` without the marker) it returns the generic
invalid-request response and the outcome is independent of the handler —
no provider handler is invoked. -/
theorem C8_route_by_agent (α : Type) (handler : HookRequest → α) (req : HookRequest) :
    (req.method = "POST" → py_search "GitHub-Hookshot" req.user_agent = true →
      receive_hook handler req = .github (handler req)) ∧
    (req.method ≠ "POST" ∨ py_search "GitHub-Hookshot" req.user_agent = false →
      receive_hook handler req = .invalidRequest "Invalid request." ∧
      ∀ handler2 : HookRequest → α,
        receive_hook handler2 req = receive_hook handler req) := by
  have hgen : ∀ h2 : HookRequest → α,
      req.method ≠ "POST" ∨ py_search "GitHub-Hookshot" req.user_agent = false →
      receive_hook h2 req = .invalidRequest "Invalid request." := by
    intro h2 h
    rcases h with hm | hua
    · simp [receive_hook, hm]
    · by_cases hp : req.method = "POST" <;> simp [receive_hook, hp, hua]
  constructor
  · intro hm hua
    simp [receive_hook, hm, hua]
  · intro h
    exact ⟨hgen handler h, fun h2 => by rw [hgen handler h, hgen h2 h]⟩

/-- Witness for the amended C8 at concrete requests: the hookshot POST is
routed to the handler, the curl POST gets the generic response. -/
theorem C8_route_by_agent_witness :
    receive_hook (fun _ => (7 : Nat))
      { method := "POST", user_agent := "GitHub-Hookshot/abc" } = .github 7 ∧
    receive_hook (fun _ => (7 : Nat))
      { method := "POST", user_agent := "curl/7.0" } =
      .invalidRequest "Invalid request." :=
  ⟨(C8_route_by_agent Nat (fun _ => 7)
      { method := "POST", user_agent := "GitHub-Hookshot/abc" }).1 rfl (by decide),
   ((C8_route_by_agent Nat (fun _ => 7)
      { method := "POST", user_agent := "curl/7.0" }).2 (Or.inr (by decide))).1⟩

/-- C9 counterexample: a POST with `Content-Length = "47"` whose container
id is absent from the store makes `Container.objects.get(id=cid)` raise
`DoesNotExist` — no job is scheduled and no HTTP 200 response is produced,
so "in every case the endpoint responds HTTP 200" fails as stated. -/
theorem C9_receive_build_counterexample :
    receive_build [] (fun s => some s)
      { method := "POST", content_length := "47", body := "B" } 5 =
      .exn "Container.DoesNotExist" ∧
    (receive_build [] (fun s => some s)
      { method := "POST", content_length := "47", body := "B" } 5).is200 = false ∧
    (receive_build [] (fun s => some s)
      { method := "POST", content_length := "47", body := "B" } 5).jobs = [] :=
  ⟨rfl, rfl, rfl⟩

/-- C9 amended: for every POST whose container id resolves in the store
and whose body literal-evaluates, a `complete_build` job with a 10-second
delay is scheduled exactly when the `Content-Length` header is the string
"47" (no job otherwise), and the endpoint responds HTTP 200 with the
{message, status, status_message} body. -/
theorem C9_receive_build_gate (store : List Container)
    (literal_eval : String → Option String) (req : BuildRequest) (cid : Nat)
    (container : Container) (params : String)
    (hpost : req.method = "POST")
    (hget : store.find? (fun c => c.id == cid) = some container)
    (hparse : literal_eval req.body = some params) :
    receive_build store literal_eval req cid =
      .ok (if req.content_length = "47"
            then [{ delay_seconds := 10, cid := container.id, params := params }]
            else [])
          { message := "Notification Received", status := 200,
            status_message := "Received" } ∧
    ((receive_build store literal_eval req cid).jobs ≠ [] ↔
      req.content_length = "47") ∧
    (receive_build store literal_eval req cid).is200 = true := by
  have hout : receive_build store literal_eval req cid =
      .ok (if req.content_length = "47"
            then [{ delay_seconds := 10, cid := container.id, params := params }]
            else [])
          { message := "Notification Received", status := 200,
            status_message := "Received" } := by
    simp [receive_build, hpost, hget, hparse]
  refine ⟨hout, ?_, ?_⟩
  · rw [hout]
    by_cases hcl : req.content_length = "47" <;>
      simp [BuildHookOutcome.jobs, hcl]
  · rw [hout]
    rfl

/-- Witness for the amended C9: a POST with length "47" against a store
holding container 1 schedules the single 10-second job and answers 200. -/
theorem C9_receive_build_gate_witness :
    (receive_build [cNew] (fun s => some s)
      { method := "POST", content_length := "47", body := "B" } 1).jobs =
      [{ delay_seconds := 10, cid := 1, params := "B" }] ∧
    (receive_build [cNew] (fun s => some s)
      { method := "POST", content_length := "47", body := "B" } 1).is200 = true := by
  have h := C9_receive_build_gate [cNew] (fun s => some s)
    { method := "POST", content_length := "47", body := "B" } 1 cNew "B" rfl rfl rfl
  exact ⟨by rw [h.1]; rfl, h.2.2⟩
